import Mathlib

/-!
Shallow embedding of `sharednet/modules/tool.py`: the experiment-ledger
bookkeeping utilities (`get_df_id`, `record_1st`, `record_2nd`,
`correct_type`, `add_best_metrics`, `time_diff`) and the telemetry monitor
(`record_cgpu_info`).  Pandas cells are modelled as a tagged `Cell` type
(the constructor records the Python element type that `type(x)` would see),
dataframes as column-major association lists, fallible Python code as
`Except`, and the in-place mutation of `record_1st` via an explicit heap of
dictionaries.
-/

namespace SharedNet

/-- A value held in a pandas cell / Python variable, tagged with its Python
type: `int`, `float` (modelled as an exact rational; every float arising in
this development is decimal), `str`, float `NaN` (pandas missing value in
float/object columns) and pandas `NA` (missing value of the nullable
`Int64` dtype). -/
inductive Cell where
  | int : Int → Cell
  | float : ℚ → Cell
  | str : String → Cell
  | nan : Cell
  | na : Cell
  deriving DecidableEq, Repr

/-- Python exceptions raised by the embedded fragments. -/
inductive PyErr where
  | keyError : PyErr
  | indexError : PyErr
  | valueError : PyErr
  | typeError : PyErr
  | fileNotFoundError : PyErr
  deriving DecidableEq, Repr

/-- `True` exactly on the `Cell.int` constructor: whether pandas reports the
cell's value as a Python `int`. -/
def Cell.isInt : Cell → Bool
  | .int _ => true
  | _ => false

/-! Rational arithmetic primitives.  The standard `Rat` field operations do
not reduce in the kernel, so the embedded code computes through `mkRat` and
integer arithmetic; the bridge lemmas `qOfInt_eq`, `qMul_eq`, `qSub_eq`,
`qDivNat_eq`, `qLtb_iff` and `qFloor_eq` below prove each primitive equal
to the corresponding field operation, so the embedding's arithmetic is
exact rational arithmetic. -/

/-- The rational `n`. -/
def qOfInt (n : Int) : ℚ := mkRat n 1

/-- Exact product of two rationals. -/
def qMul (a b : ℚ) : ℚ := mkRat (a.num * b.num) (a.den * b.den)

/-- Exact difference of two rationals. -/
def qSub (a b : ℚ) : ℚ := mkRat (a.num * b.den - b.num * a.den) (a.den * b.den)

/-- Exact quotient of a rational by a natural number. -/
def qDivNat (a : ℚ) (n : ℕ) : ℚ := mkRat a.num (a.den * n)

/-- Strict comparison of rationals by cross-multiplication. -/
def qLtb (a b : ℚ) : Bool := a.num * (b.den : Int) < b.num * (a.den : Int)

/-- Floor of a rational. -/
def qFloor (q : ℚ) : Int := q.num.fdiv (q.den : Int)

/-- Parse a run of decimal digits (Python `str.isdigit` strings). -/
def digitsToNat? (l : List Char) : Option Nat :=
  if l ≠ [] ∧ l.all (·.isDigit) then
    some (l.foldl (fun acc c => 10 * acc + (c.toNat - '0'.toNat)) 0)
  else none

/-- Parse an optionally `-`-signed decimal integer literal. -/
def charsToInt? : List Char → Option Int
  | '-' :: rest => (digitsToNat? rest).map (fun n => -(n : Int))
  | l => (digitsToNat? l).map (fun n => (n : Int))

/-- Python `str.split(sep)` on a single-character separator: the list of
(possibly empty) chunks between occurrences of `sep`. -/
def splitOnChar (sep : Char) : List Char → List (List Char)
  | [] => [[]]
  | c :: rest =>
    match splitOnChar sep rest with
    | [] => [[]]
    | h :: t => if c = sep then [] :: h :: t else (c :: h) :: t

/-- Python `int(x)` on a cell value: identity on ints, truncation toward
zero on floats, decimal parse on strings; `NaN`/`NA` raise. -/
def pyInt : Cell → Option Int
  | .int n => some n
  | .float q => some (q.num.tdiv (q.den : Int))
  | .str s => charsToInt? s.data
  | .nan => none
  | .na => none

/-- A dataframe, column-major: list of (column name, cells top to bottom).
`pd.DataFrame()` is `[]`. -/
def DF := List (String × List Cell)

instance : DecidableEq DF := by unfold DF; infer_instance

/-- The on-disk state of the ledger record file as `get_df_id` inspects it:
absent, present but of size zero, or a readable CSV parsed to a dataframe. -/
inductive LedgerFile where
  | absent : LedgerFile
  | emptyFile : LedgerFile
  | csv : DF → LedgerFile

/-- Embeds `get_df_id` (tool.py lines 190–210): an absent or size-zero
record file yields an empty dataframe and ID 1; otherwise the file is read,
the last entry of the `ID` column is taken and the new ID is
`int(last_id) + 1`.  A missing `ID` column raises `KeyError`, a dataframe
with no rows raises `IndexError` from `to_list()[-1]`, and `int()` on an
unconvertible value raises. -/
def get_df_id : LedgerFile → Except PyErr (DF × Int)
  | .absent => .ok ([], 1)
  | .emptyFile => .ok ([], 1)
  | .csv df =>
    match df.lookup "ID" with
    | none => .error .keyError
    | some ids =>
      match ids.getLast? with
      | none => .error .indexError
      | some c =>
        match pyInt c with
        | none => .error .valueError
        | some n => .ok (df, n + 1)

/-- Modelled from the spec sentence "`ID`: … monotonically assigned as
`max(existing ID) + 1`": the allocation rule the spec states, for
comparison with `get_df_id`.  Returns `max` of the integer `ID` cells plus
one. -/
def specAllocatedId (df : DF) : Option Int :=
  match df.lookup "ID" with
  | none => none
  | some ids =>
    match ids.foldl (fun acc c => match c with
      | Cell.int n => some (match acc with | none => n | some m => max m n)
      | _ => acc) none with
    | none => none
    | some m => some (m + 1)

/-- An argument of a raised Python exception: a string literal, an integer
value, or a reference to a Python builtin function (written by name). -/
inductive ExcArg where
  | str : String → ExcArg
  | intVal : Int → ExcArg
  | builtin : String → ExcArg
  deriving DecidableEq, Repr

/-- Pandas elementwise `==` of a cell against a Python int (`df['ID'] ==
current_id`): numeric cells compare by value, everything else is unequal. -/
def cellEqInt (c : Cell) (n : Int) : Bool :=
  match c with
  | .int m => m = n
  | .float q => q.num = n ∧ q.den = 1
  | _ => false

/-- Embeds the row-location step of `record_2nd` (tool.py lines 276–282):
`index = df.index[df['ID'] == current_id].to_list()`; more than one match
raises `Exception("over 1 row has the same id", id)` — where `id` is the
Python *builtin function* `id`, not the current experiment ID; zero matches
fall back to row index 0; exactly one match uses that row's index. -/
def locateIndex (ids : List Cell) (currentId : Int) : Except (List ExcArg) Nat :=
  let index := ((ids.enum).filter (fun p => cellEqInt p.2 currentId)).map Prod.fst
  if index.length > 1 then
    .error [.str "over 1 row has the same id", .builtin "id"]
  else if index.length = 0 then
    .ok 0
  else
    .ok index.headI

/-- The string rendering Python `repr`/`str` gives a float whose value is
the decimal rational `q`: sign, integer part, `.`, then the fractional
digits with trailing zeros trimmed but at least one digit kept.  Every
float in this development is an exact decimal with denominator dividing
10^6, for which the shortest round-trip repr is this exact expansion. -/
def decimalRepr (q : ℚ) : String :=
  let sign := if q.num < 0 then "-" else ""
  let n : ℕ := q.num.natAbs
  let d : ℕ := q.den
  let ip : ℕ := n / d
  let fracNum : ℕ := n % d * 1000000 / d
  let digits := (Nat.toDigits 10 (1000000 + fracNum)).drop 1
  let frac := (digits.reverse.dropWhile (· = '0')).reverse
  sign ++ toString ip ++ "." ++ String.mk (if frac = [] then ['0'] else frac)

/-- Python `str(x)` of a cell value. -/
def pyStr : Cell → String
  | .int n => toString n
  | .float q => decimalRepr q
  | .str s => s
  | .nan => "nan"
  | .na => "<NA>"

/-- A value of `log_dict` handed to `record_2nd`: a scalar, or a sequence
(Python `list` or `np.ndarray`). -/
inductive LogVal where
  | scalar : Cell → LogVal
  | seq : List Cell → LogVal

/-- Embeds the sequence-flattening step of `record_2nd` (tool.py lines
301–307): a `list`/`np.ndarray` value is replaced by the string built by
appending `str(v) + '_'` for each element `v`; scalars pass through. -/
def flattenLogVal : LogVal → Cell
  | .scalar c => c
  | .seq xs => .str (xs.foldl (fun acc v => acc ++ pyStr v ++ "_") "")

/-- The spec's wording of the flattened form: each element's string
rendering, each followed by a single underscore, concatenated in order. -/
def joinUnderscore : List Cell → String
  | [] => ""
  | v :: t => pyStr v ++ "_" ++ joinUnderscore t

/-- `astype('Int64')` on one cell: ints stay, integral floats are cast,
`NaN` becomes the nullable missing value `NA`; a non-integral float or a
string cannot be safely cast and raises. -/
def astypeInt64Cell : Cell → Except PyErr Cell
  | .int n => .ok (.int n)
  | .float q => if q.den = 1 then .ok (.int q.num) else .error .typeError
  | .nan => .ok .na
  | .na => .ok .na
  | .str _ => .error .typeError

/-- `astype('Int64')` on a whole column. -/
def astypeInt64 (cells : List Cell) : Except PyErr (List Cell) :=
  cells.mapM astypeInt64Cell

/-- Embeds `correct_type` (tool.py lines 170–187): for each column, the
Python type of the column's last value is inspected
(`type(df[column].to_list()[-1]) is int`); when it is `int` the column is
cast to the nullable `Int64` dtype, otherwise left unchanged.
`to_list()[-1]` on a zero-row column raises `IndexError`. -/
def correct_type (df : DF) : Except PyErr DF :=
  df.mapM (fun col =>
    match col.2.getLast? with
    | none => .error .indexError
    | some c =>
      if c.isInt then
        (astypeInt64 col.2).map (fun cells => (col.1, cells))
      else
        .ok col)

/-- `to_csv` rendering of one cell: nullable ints print integrally, floats
with the float repr, and both kinds of missing value print as an empty
field. -/
def writeCell : Cell → String
  | .int n => toString n
  | .float q => decimalRepr q
  | .str s => s
  | .nan => ""
  | .na => ""

/-- `to_csv` of a column (no index column). -/
def writeCol (cells : List Cell) : List String := cells.map writeCell

/-- Parse a CSV field as a float literal (optional sign, digits, optional
fractional part): `"-3.5"` parses to the exact rational `-35/10`. -/
def parseFloat? (s : String) : Option ℚ :=
  match splitOnChar '.' s.data with
  | [a] => (charsToInt? a).map qOfInt
  | [a, b] =>
    match charsToInt? a, digitsToNat? b with
    | some n, some f =>
      let neg : Bool := match a with | '-' :: _ => true | _ => false
      some (mkRat (n * (10 ^ b.length : Nat) + (if neg then -(f : Int) else (f : Int)))
        (10 ^ b.length))
    | _, _ => none
  | _ => none

/-- `read_csv` column dtype inference: a column whose raw fields are all
integer literals parses as `int64` (elements are Python ints); a column
whose fields are all empty or numeric parses as `float64`, with empty
fields becoming `NaN`; anything else is an object column of strings with
empty fields as `NaN`.  In particular the nullable `Int64` dtype is never
recovered from a CSV file. -/
def readCol (raw : List String) : List Cell :=
  if raw.all (fun s => (charsToInt? s.data).isSome) then
    raw.map (fun s => match charsToInt? s.data with | some n => .int n | none => .nan)
  else if raw.all (fun s => s = "" || (parseFloat? s).isSome) then
    raw.map (fun s =>
      if s = "" then .nan else
        match parseFloat? s with | some q => .float q | none => .nan)
  else
    raw.map (fun s => if s = "" then .nan else .str s)

/-- `to_csv` followed by `read_csv` on one column. -/
def roundTripCol (cells : List Cell) : List Cell := readCol (writeCol cells)

/-- The three loss-log modes. -/
inductive Mode where
  | train : Mode
  | valid : Mode
  | test : Mode
  deriving DecidableEq, Repr

/-- Mode name as used in file paths and column names. -/
def Mode.str : Mode → String
  | .train => "train"
  | .valid => "valid"
  | .test => "test"

/-- The loss logs visible to `add_best_metrics`: for each mode, the `loss`
column of `mypath.loss(mode)` (current experiment directory) and of
`mypath2.loss(mode)` (old experiment directory), when those files exist. -/
structure LossFiles where
  cur : Mode → Option (List ℚ)
  base : Mode → Option (List ℚ)

/-- `Series.idxmin`: index of the first occurrence of the minimum value;
`none` on an empty series (pandas raises there). -/
def idxminList (l : List ℚ) : Option Nat :=
  match l with
  | [] => none
  | x :: t =>
    some ((t.enum.foldl
      (fun (best : Nat × ℚ) p => if qLtb p.2 best.2 then (p.1 + 1, p.2) else best)
      (0, x)).1)

/-- Python `round(x, 2)` on a decimal value: scale by 100, round half to
even, scale back. -/
def round2 (q : ℚ) : ℚ :=
  let x := qMul q (qOfInt 100)
  let f : Int := qFloor x
  let r := qSub x (qOfInt f)
  let n : Int :=
    if qLtb r (mkRat 1 2) then f
    else if qLtb (mkRat 1 2) r then f + 1
    else if f % 2 = 0 then f else f + 1
  mkRat n 100

/-- `dict.update` of a single key: replace in place, else append. -/
def dictSet (d : List (String × Cell)) (k : String) (v : Cell) :
    List (String × Cell) :=
  match d with
  | [] => [(k, v)]
  | (k', v') :: t => if k' = k then (k, v) :: t else (k', v') :: dictSet t k v

/-- Dictionary lookup. -/
def dictGet (d : List (String × Cell)) (k : String) : Option Cell := d.lookup k

/-- Embeds `add_best_metrics` (tool.py lines 74–115).  First
`df.at[index, 'metrics_min'] = 'loss'`; then for each mode in
`[train, valid, test]`: read the current directory's loss log; on
`FileNotFoundError`, `shutil.copy` the base directory's log over — this
copy is *not* inside the try block, so a missing base log raises an
uncaught `FileNotFoundError` — and re-read (the re-read's own
`FileNotFoundError` would `continue` past the mode, but after a successful
copy the file exists, so that branch is unreachable).  From the log read,
take `idxmin` of the `loss` column and store `round(loss, 2)` under
`{mode}_loss` in the ledger row.  Returns the updated row and the current
directory's log files after any copies. -/
def add_best_metrics (fs : LossFiles) (row : List (String × Cell)) :
    Except PyErr (List (String × Cell) × (Mode → Option (List ℚ))) :=
  let row0 := dictSet row "metrics_min" (.str "loss")
  let step : (List (String × Cell) × (Mode → Option (List ℚ))) → Mode →
      Except PyErr (List (String × Cell) × (Mode → Option (List ℚ))) :=
    fun st mode =>
      match st.2 mode with
      | some lossDf =>
        match idxminList lossDf with
        | none => .error .valueError
        | some bestIndex =>
          match lossDf.get? bestIndex with
          | none => .error .keyError
          | some loss =>
            .ok (dictSet st.1 (mode.str ++ "_loss") (.float (round2 loss)), st.2)
      | none =>
        match fs.base mode with
        | none => .error .fileNotFoundError
        | some lossDf =>
          let cur' := fun m => if m = mode then some lossDf else st.2 m
          match idxminList lossDf with
          | none => .error .valueError
          | some bestIndex =>
            match lossDf.get? bestIndex with
            | none => .error .keyError
            | some loss =>
              .ok (dictSet st.1 (mode.str ++ "_loss") (.float (round2 loss)), cur')
  [Mode.train, Mode.valid, Mode.test].foldlM step (row0, fs.cur)

/-- Microseconds in a day. -/
def usPerDay : Int := 86400000000

/-- Zero-pad the decimal rendering of `n` to width `w` (`%02d`-style). -/
def padNat (w : Nat) (n : Nat) : String :=
  let s := toString n
  String.mk (List.replicate (w - s.length) '0') ++ s

/-- `str()` of a Python `timedelta` of `us` microseconds: normalized to
days, seconds in `[0, 86400)` and microseconds in `[0, 10^6)`, printed as
`[D day(s), ]H:MM:SS[.ffffff]` — the day part only when nonzero (singular
for ±1 day), hours unpadded, minutes and seconds padded to two digits, the
microsecond part padded to six digits and present only when nonzero. -/
def strTimedelta (us : Int) : String :=
  let days : Int := us.fdiv usPerDay
  let rem : Nat := (us - days * usPerDay).toNat
  let secs : Nat := rem / 1000000
  let micro : Nat := rem % 1000000
  let h := secs / 3600
  let m := secs % 3600 / 60
  let s := secs % 60
  let dayPart :=
    if days = 0 then ""
    else toString days ++ " day" ++ (if days.natAbs = 1 then "" else "s") ++ ", "
  dayPart ++ toString h ++ ":" ++ padNat 2 m ++ ":" ++ padNat 2 s ++
    (if micro = 0 then "" else "." ++ padNat 6 micro)

/-- Embeds `time_diff` (tool.py lines 324–342):
`str(t2 - t1).split('.')[0]`, i.e. the duration rendering truncated at the
first `.` so the microsecond part is dropped.  Timestamps are modelled as
microseconds on a common clock. -/
def time_diff (t1 t2 : Int) : String :=
  String.mk ((strTimedelta (t2 - t1)).data.takeWhile (fun c => c ≠ '.'))

/-- The GPU device index `record_cgpu_info` passes to the GPU binding: in
Python either a one-character string or the int 0. -/
inductive GpuId where
  | char : Char → GpuId
  | int : Nat → GpuId
  deriving DecidableEq, Repr

/-- Embeds the GPU-index derivation of `record_cgpu_info` (tool.py lines
416–421): `jobid_gpuid = outfile.split('-')[-1]` (text after the final
`-`), `tmp_split = jobid_gpuid.split('_')[-1]` (its last `_`-delimited
segment); if that segment has length exactly 2 the device index is its
last character (`tmp_split[-1]`), otherwise the int 0. -/
def gpuidOf (outfile : String) : GpuId :=
  let jobidGpuid := (splitOnChar '-' outfile.data).getLastD []
  let tmpSplit := (splitOnChar '_' jobidGpuid).getLastD []
  if tmpSplit.length = 2 then .char (tmpSplit.getLastD ' ') else .int 0

/-- `_bytes_to_megabytes` (tool.py lines 345–358):
`round((value_bytes / 1024) / 1024, 2)`. -/
def bytes_to_megabytes (b : Nat) : ℚ :=
  round2 (qDivNat (qDivNat (qOfInt b) 1024) 1024)

/-- What `record_cgpu_info` produces: the returned triple (device name,
final memory-usage string, utilization string — `None, None, None` on the
falsy-`outfile` path) and the iteration indices at which a `gpu_util`
metric was streamed to the tracking service. -/
structure Telemetry where
  gpuname : Option String
  gpuMemUsage : Option String
  gpuUtil : Option String
  utilSteps : List Nat

/-- Embeds `record_cgpu_info` (tool.py lines 380–447).  A falsy `outfile`
(absent or empty) samples nothing and returns `None, None, None`.
Otherwise the loop `for i in range(60*10)` accumulates
`gpu_util += res.gpu` and logs a `gpu_util` metric at each step, also
forming `gpu_mem_used` as `"<used MB>/<total MB>"` each iteration (its
final value, from the last iteration, is returned suffixed `" MB"`);
after the loop `gpu_util = gpu_util / 5` and the third component returned
is `str(gpu_util) + '%'`.  The per-iteration GPU readings are modelled as
oracle functions of the iteration index. -/
def record_cgpu_info (outfile : Option String) (gpuname : String)
    (utilSample : Nat → Nat) (memSample : Nat → Nat × Nat) : Telemetry :=
  match outfile with
  | none => ⟨none, none, none, []⟩
  | some s =>
    if s = "" then ⟨none, none, none, []⟩
    else
      ⟨some gpuname,
        some (decimalRepr (bytes_to_megabytes (memSample (60 * 10 - 1)).1) ++ "/" ++
          decimalRepr (bytes_to_megabytes (memSample (60 * 10 - 1)).2) ++ " MB"),
        some (decimalRepr (qDivNat (qOfInt
          (((List.range (60 * 10)).foldl (fun acc i => acc + utilSample i) 0 : ℕ) : Int)) 5)
          ++ "%"),
        List.range (60 * 10)⟩

/-- A heap of Python dictionaries indexed by object identity: models which
dict object a name refers to, so aliasing through `vars(args)` is
observable. -/
def Heap := Nat → List (String × Cell)

/-- `vars(args)`: returns the namespace's own `__dict__` object — the same
heap address, not a copy. -/
def varsAddr (args : Nat) : Nat := args

/-- Replace the dictionary stored at one heap address. -/
def heapSet (h : Heap) (a : Nat) (d : List (String × Cell)) : Heap :=
  fun x => if x = a then d else h x

/-- `dict.update(other)`: set each of `other`'s keys, in order. -/
def dictUpdate (d other : List (String × Cell)) : List (String × Cell) :=
  other.foldl (fun acc kv => dictSet acc kv.1 kv.2) d

/-- Embeds the argument-merging step of `record_1st` (tool.py lines
237–251): `idatime = {'ID': new_id, 'start_date': start_date,
'start_time': start_time}`; `args_dict = vars(args)` — the args
namespace's own attribute dict, not a copy; `args_dict.update(idatime)`;
`record_1st` returns `new_id, args_dict`.  Modelled on the heap so the
in-place mutation is visible: input is the address of `args.__dict__`,
output is the updated heap and the returned pair, whose second component
is again an address. -/
def record_1st_merge (h : Heap) (args : Nat) (newId : Int)
    (startDate startTime : String) : Heap × Int × Nat :=
  let idatime := [("ID", Cell.int newId), ("start_date", Cell.str startDate),
    ("start_time", Cell.str startTime)]
  let argsDict := varsAddr args
  let d := dictUpdate (h argsDict) idatime
  (heapSet h argsDict d, newId, argsDict)

end SharedNet

namespace SharedNet

theorem qOfInt_eq (n : Int) : qOfInt n = (n : ℚ) := by
  simp [qOfInt]

theorem qMul_eq (a b : ℚ) : qMul a b = a * b := by
  rw [qMul, Rat.mkRat_eq_divInt, Rat.divInt_eq_div]
  conv_rhs => rw [← Rat.num_div_den a, ← Rat.num_div_den b]
  rw [div_mul_div_comm]
  push_cast
  ring_nf

theorem qSub_eq (a b : ℚ) : qSub a b = a - b := by
  have hda : ((a.den : ℚ)) ≠ 0 := by
    exact_mod_cast a.den_nz
  have hdb : ((b.den : ℚ)) ≠ 0 := by
    exact_mod_cast b.den_nz
  rw [qSub, Rat.mkRat_eq_divInt, Rat.divInt_eq_div]
  conv_rhs => rw [← Rat.num_div_den a, ← Rat.num_div_den b]
  rw [div_sub_div _ _ hda hdb]
  push_cast
  ring_nf

theorem qDivNat_eq (a : ℚ) (n : ℕ) : qDivNat a n = a / n := by
  rw [qDivNat, Rat.mkRat_eq_divInt, Rat.divInt_eq_div]
  push_cast
  rw [← div_div, Rat.num_div_den]

theorem qLtb_iff (a b : ℚ) : qLtb a b = true ↔ a < b := by
  rw [qLtb, Rat.lt_def, decide_eq_true_eq]

theorem qFloor_eq (q : ℚ) : qFloor q = ⌊q⌋ := by
  rw [qFloor, Rat.floor_def]
  exact Int.fdiv_eq_ediv _ (by positivity)

theorem foldl_flatten_eq_joinUnderscore (xs : List Cell) :
    ∀ acc : String,
      xs.foldl (fun acc v => acc ++ pyStr v ++ "_") acc = acc ++ joinUnderscore xs := by
  induction xs with
  | nil => intro acc; simp [joinUnderscore]
  | cons v t ih =>
    intro acc
    simp only [List.foldl_cons, joinUnderscore]
    rw [ih]
    simp [String.append_assoc]

/-- C1: for the allocate-and-start operation (`record_1st` / `get_df_id`):
if the ledger file is absent or has size zero, the allocated experiment ID
is 1; otherwise, if the last row of the ledger has `ID = N`, the allocated
ID is `N + 1`, for every ledger contents including ones with gaps or
out-of-order historical IDs. -/
theorem get_df_id_last_plus_one :
    get_df_id .absent = .ok ([], 1) ∧
    get_df_id .emptyFile = .ok ([], 1) ∧
    ∀ (df : DF) (ids : List Cell) (N : Int),
      df.lookup "ID" = some ids →
      ids.getLast? = some (.int N) →
      get_df_id (.csv df) = .ok (df, N + 1) := by
  refine ⟨rfl, rfl, ?_⟩
  intro df ids N hlook hlast
  simp [get_df_id, hlook, hlast, pyInt]

/-- Witness for C1 at a concrete out-of-order, gapped ledger: IDs 7, 2, 41;
the allocated ID is 42. -/
theorem get_df_id_last_plus_one_witness :
    (([("ID", [Cell.int 7, Cell.int 2, Cell.int 41])] : DF).lookup "ID"
        = some [Cell.int 7, Cell.int 2, Cell.int 41]) ∧
    ([Cell.int 7, Cell.int 2, Cell.int 41].getLast? = some (.int 41)) ∧
    get_df_id (.csv [("ID", [Cell.int 7, Cell.int 2, Cell.int 41])])
      = .ok ([("ID", [Cell.int 7, Cell.int 2, Cell.int 41])], 42) :=
  ⟨by decide, by decide,
    get_df_id_last_plus_one.2.2 [("ID", [Cell.int 7, Cell.int 2, Cell.int 41])]
      [Cell.int 7, Cell.int 2, Cell.int 41] 41 (by decide) (by decide)⟩

/-- C2 counterexample: on the ledger whose `ID` column is `[5, 3]`,
`get_df_id` allocates `3 + 1 = 4` (last row's ID plus one), not
`max(existing ID) + 1 = 6` as the claim states. -/
theorem get_df_id_not_max_counterexample :
    get_df_id (.csv [("ID", [Cell.int 5, Cell.int 3])])
      = .ok ([("ID", [Cell.int 5, Cell.int 3])], 4) ∧
    specAllocatedId [("ID", [Cell.int 5, Cell.int 3])] = some 6 ∧
    (4 : Int) ≠ 6 := by
  refine ⟨rfl, by decide, by decide⟩

/-- C2 amended: the allocated ID is (last row's ID) + 1; when the last
row's ID is moreover the maximum of all integer IDs present (as it is for
a ledger appended in order), the allocation equals `max(existing ID) + 1`
and is distinct from every existing ID, so IDs stay unique. -/
theorem get_df_id_max_plus_one_when_sorted :
    ∀ (df : DF) (ids : List Cell) (N : Int),
      df.lookup "ID" = some ids →
      ids.getLast? = some (.int N) →
      (∀ c ∈ ids, ∃ m : Int, c = .int m ∧ m ≤ N) →
      get_df_id (.csv df) = .ok (df, N + 1) ∧
      ∀ c ∈ ids, c ≠ .int (N + 1) := by
  intro df ids N hlook hlast hmax
  refine ⟨by simp [get_df_id, hlook, hlast, pyInt], ?_⟩
  intro c hc heq
  obtain ⟨m, hcm, hle⟩ := hmax c hc
  rw [hcm] at heq
  have : m = N + 1 := by injection heq
  omega

/-- Witness for the amended C2 at the in-order ledger with IDs 1, 2:
allocation yields 3, which is none of the existing IDs. -/
theorem get_df_id_max_plus_one_when_sorted_witness :
    (([("ID", [Cell.int 1, Cell.int 2])] : DF).lookup "ID"
        = some [Cell.int 1, Cell.int 2]) ∧
    ([Cell.int 1, Cell.int 2].getLast? = some (.int 2)) ∧
    (∀ c ∈ [Cell.int 1, Cell.int 2], ∃ m : Int, c = .int m ∧ m ≤ 2) ∧
    (get_df_id (.csv [("ID", [Cell.int 1, Cell.int 2])])
        = .ok ([("ID", [Cell.int 1, Cell.int 2])], 3) ∧
      ∀ c ∈ [Cell.int 1, Cell.int 2], c ≠ .int 3) := by
  refine ⟨by decide, by decide, ?_, ?_⟩
  · intro c hc
    simp only [List.mem_cons, List.not_mem_nil, or_false] at hc
    rcases hc with h | h
    · exact ⟨1, by rw [h], by norm_num⟩
    · exact ⟨2, by rw [h], by norm_num⟩
  · refine get_df_id_max_plus_one_when_sorted _ _ 2 (by decide) (by decide) ?_
    intro c hc
    simp only [List.mem_cons, List.not_mem_nil, or_false] at hc
    rcases hc with h | h
    · exact ⟨1, by rw [h], by norm_num⟩
    · exact ⟨2, by rw [h], by norm_num⟩

/-- C3 (code bug): on a ledger whose `ID` column holds 7 twice, the
finalize row-location step does raise a duplicate-identifier failure
without touching either row, and with zero matches it uses row index 0 —
but the exception's arguments are the fixed message and the Python
*builtin function* `id`, so the offending ID 7 is not named, contrary to
the claim and to the evident intent of naming the duplicated experiment
ID. -/
theorem locateIndex_duplicate_names_builtin_not_id :
    locateIndex [Cell.int 7, Cell.int 7] 7
      = .error [.str "over 1 row has the same id", .builtin "id"] ∧
    ExcArg.intVal 7 ∉
      [ExcArg.str "over 1 row has the same id", ExcArg.builtin "id"] ∧
    locateIndex [Cell.int 3] 7 = .ok 0 ∧
    locateIndex [Cell.int 3, Cell.int 7] 7 = .ok 1 :=
  ⟨rfl, by decide, rfl, rfl⟩

/-- C6: every `list`/array log value supplied to finalize is stored as the
concatenation of each element's string rendering each followed by a single
underscore; in particular `[1, 2, 3]` is stored as the literal string
`"1_2_3_"`. -/
theorem flattenLogVal_seq_underscore_join :
    flattenLogVal (.seq [Cell.int 1, Cell.int 2, Cell.int 3]) = .str "1_2_3_" ∧
    ∀ xs : List Cell, flattenLogVal (.seq xs) = .str (joinUnderscore xs) := by
  constructor
  · rfl
  · intro xs
    simp [flattenLogVal, foldl_flatten_eq_joinUnderscore]

/-- C4 (code bug): when a mode's loss log is absent from the current
directory *and* from the base directory, the copy-forward (`shutil.copy`)
raises an uncaught `FileNotFoundError` and the whole operation fails,
contrary to the claim (and the code's own comment) that the mode is
skipped; the recovery-and-rounding path itself works: with the base
directory holding a log whose minimum `loss` is 0.1234, the row gets
`valid_loss = 0.12`. -/
theorem add_best_metrics_missing_base_raises :
    add_best_metrics ⟨fun _ => none, fun _ => none⟩ [] = .error .fileNotFoundError ∧
    (add_best_metrics
        ⟨fun _ => none,
         fun _ => some [mkRat 3 10, mkRat 1234 10000, mkRat 25 100]⟩ []).map
      (fun r => dictGet r.1 "valid_loss") = .ok (some (.float (mkRat 12 100))) :=
  ⟨rfl, rfl⟩

/-- C5 counterexample: for a column holding `[3, absent, 5]` whose last
written value is the Python int 5, Type-Correction does produce the
nullable-integer column `[3, NA, 5]`, but the CSV write/read round-trip
re-infers it as `float64`: the cells come back as `3.0`, `NaN`, `5.0`, so
they are *not* still reported as integers with the absent cell absent. -/
theorem correct_type_roundtrip_counterexample :
    correct_type [("n_epochs", [Cell.int 3, Cell.nan, Cell.int 5])]
      = .ok [("n_epochs", [Cell.int 3, Cell.na, Cell.int 5])] ∧
    roundTripCol [Cell.int 3, Cell.na, Cell.int 5]
      = [Cell.float 3, Cell.nan, Cell.float 5] ∧
    ¬ ∀ c ∈ roundTripCol [Cell.int 3, Cell.na, Cell.int 5],
        c.isInt = true ∨ c = Cell.na :=
  ⟨rfl, by decide, by decide⟩

/-- C5 amended: after Type-Correction the in-memory column reports the
present cells as integers and the absent cell as `NA`, and the CSV
rendering writes them integrally (`"3"`, `""`, `"5"`, never `"3.0"`); but
after the write/read round-trip the column is re-inferred as floating
point, with present cells reported as `3.0`/`5.0` and the absent cell as
`NaN`. -/
theorem correct_type_roundtrip_amended :
    correct_type [("n_epochs", [Cell.int 3, Cell.nan, Cell.int 5])]
      = .ok [("n_epochs", [Cell.int 3, Cell.na, Cell.int 5])] ∧
    writeCol [Cell.int 3, Cell.na, Cell.int 5] = ["3", "", "5"] ∧
    readCol ["3", "", "5"] = [Cell.float 3, Cell.nan, Cell.float 5] :=
  ⟨rfl, by decide, by decide⟩

set_option maxRecDepth 10000 in
/-- C7: `time_diff` renders `t2 − t1` with the fractional-second component
always discarded: ten-o'clock to 10:05:30 the same day gives `"0:05:30"`,
to 10:00:05 the next day gives `"1 day, 0:00:05"`, and for every pair of
timestamps the result contains no `.` (hence no fractional-second part). -/
theorem time_diff_drops_microseconds :
    time_diff (36000 * 1000000) ((36000 + 330) * 1000000) = "0:05:30" ∧
    time_diff (36000 * 1000000) ((86400 + 36000 + 5) * 1000000)
      = "1 day, 0:00:05" ∧
    ∀ t1 t2 : Int, '.' ∉ (time_diff t1 t2).data := by
  refine ⟨by decide, by decide, ?_⟩
  intro t1 t2 hmem
  have := List.mem_takeWhile_imp hmem
  simp at this

theorem foldl_add_eq_sum_map (f : Nat → Nat) (l : List Nat) :
    ∀ acc : Nat, l.foldl (fun a i => a + f i) acc = acc + (l.map f).sum := by
  induction l with
  | nil => intro acc; simp
  | cons x t ih => intro acc; simp [ih, Nat.add_assoc]

/-- C8: for every non-empty `outfile`, the sampling loop of
`record_cgpu_info` streams exactly 600 per-iteration `gpu_util` metrics,
and the returned third component is the string rendering of (the sum of
the 600 sampled utilization percentages) divided by the literal 5 — not by
the iteration count 600 — followed by `"%"`. -/
theorem record_cgpu_info_600_samples_div_5 :
    ∀ (s gpuname : String) (utilSample : Nat → Nat)
      (memSample : Nat → Nat × Nat),
      s ≠ "" →
      (record_cgpu_info (some s) gpuname utilSample memSample).utilSteps.length
          = 600 ∧
      (record_cgpu_info (some s) gpuname utilSample memSample).gpuUtil
        = some (decimalRepr
            (((((List.range 600).map utilSample).sum : ℕ) : ℚ) / 5) ++ "%") := by
  intro s gpuname utilSample memSample hs
  have h600 : (60 * 10 : ℕ) = 600 := by norm_num
  constructor
  · simp [record_cgpu_info, hs, h600]
  · simp only [record_cgpu_info, if_neg hs, h600]
    rw [foldl_add_eq_sum_map, Nat.zero_add, qDivNat_eq, qOfInt_eq]
    push_cast
    simp only [List.map_map, Function.comp_def, Int.cast_natCast]

/-- Witness for C8 at `outfile = "slurm-1.out"` with all utilization
samples equal to 1. -/
theorem record_cgpu_info_600_samples_div_5_witness :
    ("slurm-1.out" : String) ≠ "" ∧
    ((record_cgpu_info (some "slurm-1.out") "gpu" (fun _ => 1)
          (fun _ => (0, 0))).utilSteps.length = 600 ∧
      (record_cgpu_info (some "slurm-1.out") "gpu" (fun _ => 1)
          (fun _ => (0, 0))).gpuUtil
        = some (decimalRepr
            (((((List.range 600).map (fun _ => 1)).sum : ℕ) : ℚ) / 5) ++ "%")) :=
  ⟨by decide,
    record_cgpu_info_600_samples_div_5 "slurm-1.out" "gpu" (fun _ => 1)
      (fun _ => (0, 0)) (by decide)⟩

/-- C9 counterexample: `outfile = "slurm-1234_05.out"` yields device index
int 0, not the character `'5'`: the candidate segment is `"05.out"` (the
`.out` extension is part of it), whose length is 6, not 2. -/
theorem gpuidOf_dotted_suffix_counterexample :
    gpuidOf "slurm-1234_05.out" = .int 0 ∧ GpuId.int 0 ≠ GpuId.char '5' :=
  ⟨by decide, by decide⟩

/-- C9 amended: the candidate segment is the last `_`-delimited segment of
the text after the final `-` of `outfile`, extension included; only when
that segment has length exactly 2 is the device index its second
character, otherwise it is the int 0.  So `"slurm-1234_05.out"` (segment
`"05.out"`) and `"slurm-1234.out"` (segment `"1234.out"`) both yield 0,
while an outfile whose name ends in a 2-character segment, such as
`"slurm-1234_05"`, yields `'5'`. -/
theorem gpuidOf_examples :
    gpuidOf "slurm-1234_05.out" = .int 0 ∧
    gpuidOf "slurm-1234.out" = .int 0 ∧
    gpuidOf "slurm-1234_05" = .char '5' ∧
    gpuidOf "slurm-1234_a5.out" = .int 0 :=
  ⟨by decide, by decide, by decide, by decide⟩

theorem dictGet_dictSet_self (d : List (String × Cell)) (k : String) (v : Cell) :
    dictGet (dictSet d k v) k = some v := by
  induction d with
  | nil => simp [dictSet, dictGet, List.lookup]
  | cons kv t ih =>
    obtain ⟨k₀, v₀⟩ := kv
    by_cases hk : k₀ = k
    · simp [dictSet, hk, dictGet, List.lookup]
    · have hne : (k == k₀) = false := by
        rw [beq_eq_false_iff_ne]
        exact fun he => hk he.symm
      simp only [dictSet]
      rw [if_neg hk]
      simp only [dictGet, List.lookup, hne]
      exact ih

theorem dictGet_dictSet_ne (d : List (String × Cell)) (k k' : String) (v : Cell)
    (h : k ≠ k') : dictGet (dictSet d k v) k' = dictGet d k' := by
  have hne : (k' == k) = false := by
    rw [beq_eq_false_iff_ne]
    exact fun he => h he.symm
  induction d with
  | nil => simp [dictSet, dictGet, List.lookup, hne]
  | cons kv t ih =>
    obtain ⟨k₀, v₀⟩ := kv
    by_cases hk : k₀ = k
    · subst hk
      simp [dictSet, dictGet, List.lookup, hne]
    · simp only [dictSet]
      rw [if_neg hk]
      simp only [dictGet, List.lookup]
      cases hbeq : (k' == k₀) with
      | true => rfl
      | false => exact ih

/-- C10: `record_1st` mutates the caller's argument object in place — the
dictionary it merges the ID and start timestamp into is `vars(args)`, the
args namespace's own attribute mapping, so the returned dictionary aliases
`args` (same heap address) and after the call `args` itself carries the
new `ID`, `start_date` and `start_time` fields. -/
theorem record_1st_merge_aliases_args :
    ∀ (h : Heap) (args : Nat) (newId : Int) (startDate startTime : String),
      (record_1st_merge h args newId startDate startTime).2.2 = args ∧
      dictGet ((record_1st_merge h args newId startDate startTime).1 args) "ID"
          = some (.int newId) ∧
      dictGet ((record_1st_merge h args newId startDate startTime).1 args)
          "start_date" = some (.str startDate) ∧
      dictGet ((record_1st_merge h args newId startDate startTime).1 args)
          "start_time" = some (.str startTime) := by
  intro h args newId startDate startTime
  have hheap : (record_1st_merge h args newId startDate startTime).1 args
      = dictSet (dictSet (dictSet (h args) "ID" (.int newId))
          "start_date" (.str startDate)) "start_time" (.str startTime) := by
    simp [record_1st_merge, heapSet, varsAddr, dictUpdate]
  refine ⟨rfl, ?_, ?_, ?_⟩
  · rw [hheap, dictGet_dictSet_ne _ _ _ _ (by decide),
      dictGet_dictSet_ne _ _ _ _ (by decide), dictGet_dictSet_self]
  · rw [hheap, dictGet_dictSet_ne _ _ _ _ (by decide), dictGet_dictSet_self]
  · rw [hheap, dictGet_dictSet_self]

end SharedNet
